import Mathlib

/-!
Verification of the `file-lock` crate: a shallow embedding of
`src/functions.rs` (the locking-primitive adapter) and `src/fd.rs`
(the `Lock` handle), together with theorems settling the spec's claims.

The external C entry points `c_lock`/`c_unlock` are foreign code, out of
scope per the spec; they are modelled as a parameter `Prim σ`: a state
machine over an abstract world `σ` returning a raw integer code, exactly
the interface the Rust adapter consumes.  Each adapter operation also
records the list of external calls it issues, so that "calls the
primitive exactly once", "never closes the descriptor" and the drop
behaviour are statable.
-/

/-- Modelled from the spec: the `Kind` enumeration of `util.rs`, which is not
under `src/` — `NonBlocking | Blocking`, selecting whether acquisition waits
for a contended lock or fails immediately (spec section 3). -/
inductive Kind
  | NonBlocking
  | Blocking
deriving DecidableEq

/-- Modelled from the spec: the `Mode` enumeration of `util.rs`, which is not
under `src/` — read vs write intent passed through to the OS primitive
(spec section 3). -/
inductive Mode
  | Read
  | Write
deriving DecidableEq

/-- Modelled from the spec: `Kind::into()` produces the primitive's
`should_block` boolean flag (spec section 6: "a locking entry point taking
(descriptor, should-block: boolean, is-write-lock: boolean)"). -/
def Kind.into : Kind → Int
  | .NonBlocking => 0
  | .Blocking => 1

/-- Modelled from the spec: `Mode::into()` produces the primitive's
`is_write_lock` boolean flag (spec section 6). -/
def Mode.into : Mode → Int
  | .Read => 0
  | .Write => 1

/-- The POSIX `EAGAIN` code (`libc::consts::os::posix88::EAGAIN`, 11 on
Linux), the one code `functions::lock` classifies as `WouldBlock`. -/
def EAGAIN : Int := 11

/-- `functions::Error`: `WouldBlock`, or `Errno(code)` carrying the raw
OS error code (the payload of `errno::Errno`). -/
inductive Error
  | WouldBlock
  | Errno (code : Int)
deriving DecidableEq

/-- The vocabulary of external calls a component could issue on a
descriptor: the lock entry point, the unlock entry point, or closing the
descriptor.  The embedding records which of these each operation performs
(the source never issues `close`; it is in the vocabulary so that "never
closes the descriptor" is a statable property). -/
inductive Call
  | lock (fd should_block is_write_lock : Int)
  | unlock (fd : Int)
  | close (fd : Int)
deriving DecidableEq

/-- Whether a call is a `close` of a descriptor. -/
def Call.isClose : Call → Bool
  | .close _ => true
  | _ => false

/-- The external primitive boundary of `functions.rs`: the two foreign
entry points `c_lock(fd, should_block, is_write_lock)` and `c_unlock(fd)`,
each acting on an abstract OS world `σ` and returning a raw integer code
(0 = success, otherwise a POSIX error code). -/
structure Prim (σ : Type) where
  c_lock : σ → Int → Int → Int → Int × σ
  c_unlock : σ → Int → Int × σ

/-- The outcome of one adapter or handle operation: the value returned to
the caller, the OS world afterwards, and the external calls issued. -/
structure Outcome (α : Type) (σ : Type) where
  result : α
  state : σ
  calls : List Call

/-- The `match` in `functions::lock` classifying the raw code returned by
`c_lock`: `0 => Ok(())`, `EAGAIN => Err(Error::WouldBlock)`,
`_ => Err(Error::Errno(errno::Errno(errno)))`. -/
def lockResult (errno : Int) : Except Error Unit :=
  if errno = 0 then .ok ()
  else if errno = EAGAIN then .error .WouldBlock
  else .error (.Errno errno)

/-- `functions::lock(fd, kind, mode)`: calls `c_lock(fd, kind.into(),
mode.into())` once and classifies its return code with `lockResult`. -/
def functions.lock {σ : Type} (p : Prim σ) (s : σ) (fd : Int)
    (kind : Kind) (mode : Mode) : Outcome (Except Error Unit) σ where
  result := lockResult (p.c_lock s fd kind.into mode.into).1
  state := (p.c_lock s fd kind.into mode.into).2
  calls := [Call.lock fd kind.into mode.into]

/-- `functions::unlock(fd)`: calls `c_unlock(fd)` once; `0 => Ok(())`,
any other code `c` is returned raw as `Err(errno::Errno(c))`. -/
def functions.unlock {σ : Type} (p : Prim σ) (s : σ) (fd : Int) :
    Outcome (Except Int Unit) σ where
  result := if (p.c_unlock s fd).1 = 0 then .ok () else .error (p.c_unlock s fd).1
  state := (p.c_unlock s fd).2
  calls := [Call.unlock fd]

/-- `fd::Lock`: the handle; its only field is the raw descriptor `fd`. -/
structure Lock where
  fd : Int
deriving DecidableEq

/-- `Lock::new(fd)`: pure construction, stores the descriptor. -/
def Lock.new (fd : Int) : Lock := ⟨fd⟩

/-- `Lock::lock(&self, kind, mode)`: delegates to
`functions::lock(self.fd, kind, mode)`. -/
def Lock.lock {σ : Type} (l : Lock) (p : Prim σ) (s : σ)
    (kind : Kind) (mode : Mode) : Outcome (Except Error Unit) σ :=
  functions.lock p s l.fd kind mode

/-- `Lock::unlock(&self)`: delegates to `functions::unlock(self.fd)`. -/
def Lock.unlock {σ : Type} (l : Lock) (p : Prim σ) (s : σ) :
    Outcome (Except Int Unit) σ :=
  functions.unlock p s l.fd

/-- `impl Drop for Lock`: `fn drop(&mut self) { self.unlock().ok(); }` —
one call to `unlock`, whose `Result` is converted with `.ok()` and
discarded; drop itself returns nothing. -/
def Lock.drop {σ : Type} (l : Lock) (p : Prim σ) (s : σ) : Outcome Unit σ :=
  { result := (let _discarded : Option Unit := (l.unlock p s).result.toOption
               ())
    state := (l.unlock p s).state
    calls := (l.unlock p s).calls }

/-- Modelled from the spec: the OS lock state the external primitive acts
on — per descriptor, whether this process holds the advisory lock and
whether another holder does (spec sections 3 and 5; the C implementation
of `c_lock`/`c_unlock` is not under `src/`). -/
structure OsState where
  ownLocked : Int → Bool
  otherLocked : Int → Bool

/-- Pointwise update of a per-descriptor boolean map. -/
def setFd (f : Int → Bool) (fd : Int) (b : Bool) : Int → Bool :=
  fun x => if x = fd then b else f x

/-- Modelled from the spec: the external locking entry point (`c_lock` is
not under `src/`).  Uncontended acquisition succeeds (code 0); a contended
non-blocking request returns `EAGAIN`; a contended blocking request waits
for the other holder to relinquish the lock and then succeeds
(spec sections 4.1 and 6). -/
def specCLock (s : OsState) (fd should_block : Int) (_is_write_lock : Int) :
    Int × OsState :=
  if s.otherLocked fd then
    if should_block = 0 then (EAGAIN, s)
    else (0, { ownLocked := setFd s.ownLocked fd true
               otherLocked := setFd s.otherLocked fd false })
  else (0, { s with ownLocked := setFd s.ownLocked fd true })

/-- Modelled from the spec: the external unlocking entry point (`c_unlock`
is not under `src/`).  Release succeeds, and a descriptor that holds no
lock unlocking again is defined to succeed (idempotent, spec section 4.1). -/
def specCUnlock (s : OsState) (fd : Int) : Int × OsState :=
  (0, { s with ownLocked := setFd s.ownLocked fd false })

/-- The spec-modelled external primitive, packaging `specCLock` and
`specCUnlock`. -/
def specPrim : Prim OsState := ⟨specCLock, specCUnlock⟩

/-- An OS state with no descriptor locked by anyone, for concrete runs. -/
def osFree : OsState := ⟨fun _ => false, fun _ => false⟩

/-- Case analysis of the classification `lockResult`, shared by the
acquisition theorems. -/
theorem lockResult_cases (c : Int) :
    (lockResult c = .ok () ↔ c = 0) ∧
    (lockResult c = .error .WouldBlock ↔ c = EAGAIN) ∧
    (c ≠ 0 → c ≠ EAGAIN → lockResult c = .error (.Errno c)) := by
  unfold lockResult
  by_cases h0 : c = 0 <;> by_cases hE : c = EAGAIN <;>
    simp_all [EAGAIN]

/-- Claim C1: when a `Lock` handle is dropped, drop invokes `unlock` exactly
once (a single `c_unlock` call on the handle's descriptor), never propagates
an error (its result is the unit value whatever code the release returned,
the error having been discarded by `.ok()`), and otherwise has exactly the
effect of `unlock` on the world; an explicit `unlock()` call by the caller
returns the release result of `functions::unlock` normally. -/
theorem C1_drop_unlocks_once_discards_error {σ : Type} (p : Prim σ) (s : σ)
    (l : Lock) :
    (l.drop p s).calls = [Call.unlock l.fd] ∧
    (l.drop p s).result = () ∧
    (l.drop p s).state = (l.unlock p s).state ∧
    (l.unlock p s).result = (functions.unlock p s l.fd).result :=
  ⟨rfl, rfl, rfl, rfl⟩

/-- Claim C2: for every fd, kind and mode, `functions::lock` classifies the
primitive's return code as a trichotomy: `Ok(())` exactly when the code is 0,
`Err(WouldBlock)` exactly when the code is `EAGAIN`, and any other non-zero
code `c` yields `Err(Errno(c))` carrying `c` verbatim. -/
theorem C2_lock_trichotomy {σ : Type} (p : Prim σ) (s : σ) (fd : Int)
    (kind : Kind) (mode : Mode) :
    ((functions.lock p s fd kind mode).result = .ok () ↔
      (p.c_lock s fd kind.into mode.into).1 = 0) ∧
    ((functions.lock p s fd kind mode).result = .error .WouldBlock ↔
      (p.c_lock s fd kind.into mode.into).1 = EAGAIN) ∧
    (∀ c : Int, (p.c_lock s fd kind.into mode.into).1 = c → c ≠ 0 →
      c ≠ EAGAIN →
      (functions.lock p s fd kind mode).result = .error (.Errno c)) := by
  refine ⟨(lockResult_cases _).1, (lockResult_cases _).2.1, ?_⟩
  rintro c rfl h0 hE
  exact (lockResult_cases _).2.2 h0 hE

/-- Concrete run of claim C2's theorem: a primitive returning code 5 makes
`functions::lock` return `Err(Errno(5))`. -/
theorem C2_lock_trichotomy_witness :
    (functions.lock (⟨fun s _ _ _ => (5, s), fun s _ => (0, s)⟩ : Prim Unit)
      () 3 Kind.NonBlocking Mode.Write).result = .error (.Errno 5) :=
  (C2_lock_trichotomy (⟨fun s _ _ _ => (5, s), fun s _ => (0, s)⟩ : Prim Unit)
    () 3 Kind.NonBlocking Mode.Write).2.2 5 rfl (by decide) (by decide)

/-- Claim C3: a `Blocking` acquisition never returns `Err(WouldBlock)`: under
the spec's contract for the external primitive — a blocking request returns
only when the OS grants the lock or fails for real, never with `EAGAIN` —
the caller observes either `Ok(())` or an `Errno` failure. -/
theorem C3_blocking_never_wouldblock {σ : Type} (p : Prim σ) (s : σ)
    (fd : Int) (mode : Mode)
    (h : (p.c_lock s fd Kind.Blocking.into mode.into).1 ≠ EAGAIN) :
    (functions.lock p s fd Kind.Blocking mode).result ≠ .error .WouldBlock ∧
    ((functions.lock p s fd Kind.Blocking mode).result = .ok () ∨
      ∃ c : Int,
        (functions.lock p s fd Kind.Blocking mode).result = .error (.Errno c)) := by
  constructor
  · intro hw
    exact h ((lockResult_cases _).2.1.mp hw)
  · by_cases h0 : (p.c_lock s fd Kind.Blocking.into mode.into).1 = 0
    · exact Or.inl ((lockResult_cases _).1.mpr h0)
    · exact Or.inr ⟨_, (lockResult_cases _).2.2 h0 h⟩

/-- Concrete run of claim C3's theorem on the spec-modelled primitive with a
free descriptor. -/
theorem C3_blocking_never_wouldblock_witness :
    (functions.lock specPrim osFree 3 Kind.Blocking Mode.Write).result ≠
        .error .WouldBlock ∧
    ((functions.lock specPrim osFree 3 Kind.Blocking Mode.Write).result =
        .ok () ∨
      ∃ c : Int,
        (functions.lock specPrim osFree 3 Kind.Blocking Mode.Write).result =
          .error (.Errno c)) :=
  C3_blocking_never_wouldblock specPrim osFree 3 Mode.Write (by decide)

/-- Claim C4: `functions::unlock` returns `Ok(())` exactly when `c_unlock`
returns 0, and otherwise returns the raw nonzero code uninterpreted; its
result type has no `WouldBlock` classification at all. -/
theorem C4_unlock_raw_code {σ : Type} (p : Prim σ) (s : σ) (fd : Int) :
    ((functions.unlock p s fd).result = .ok () ↔ (p.c_unlock s fd).1 = 0) ∧
    (∀ c : Int, (p.c_unlock s fd).1 = c → c ≠ 0 →
      (functions.unlock p s fd).result = .error c) := by
  constructor
  · by_cases h : (p.c_unlock s fd).1 = 0 <;> simp [functions.unlock, h]
  · rintro c rfl h0
    simp [functions.unlock, h0]

/-- Concrete run of claim C4's theorem: an unlock primitive returning code 7
makes `functions::unlock` return that raw code. -/
theorem C4_unlock_raw_code_witness :
    (functions.unlock (⟨fun s _ _ _ => (0, s), fun s _ => (7, s)⟩ : Prim Unit)
      () 3).result = .error 7 :=
  (C4_unlock_raw_code
    (⟨fun s _ _ _ => (0, s), fun s _ => (7, s)⟩ : Prim Unit) () 3).2 7 rfl
    (by decide)

/-- Claim C5: the handle layer is a pure pass-through of the adapter: for
every world (hence on every invocation), `Lock::new(fd).lock(kind, mode)`
equals `functions::lock(fd, kind, mode)` and `Lock::new(fd).unlock()`
equals `functions::unlock(fd)`, result, world and calls alike. -/
theorem C5_handle_passthrough {σ : Type} (p : Prim σ) (s : σ) (fd : Int)
    (kind : Kind) (mode : Mode) :
    (Lock.new fd).lock p s kind mode = functions.lock p s fd kind mode ∧
    (Lock.new fd).unlock p s = functions.unlock p s fd :=
  ⟨rfl, rfl⟩

/-- Claim C6: on a handle that never acquired a lock, `unlock()` returns
`Ok(())` rather than an error, and a second release after a release also
returns `Ok(())`, given the external primitive succeeds (returns 0) on an
unlocked descriptor — as the spec defines it to. -/
theorem C6_unlock_idempotent_ok {σ : Type} (p : Prim σ) (s : σ) (fd : Int)
    (h1 : (p.c_unlock s fd).1 = 0)
    (h2 : (p.c_unlock ((Lock.new fd).unlock p s).state fd).1 = 0) :
    ((Lock.new fd).unlock p s).result = .ok () ∧
    ((Lock.new fd).unlock p ((Lock.new fd).unlock p s).state).result =
      .ok () := by
  constructor
  · simp [Lock.new, Lock.unlock, functions.unlock, h1]
  · simp only [Lock.new, Lock.unlock, functions.unlock] at h2 ⊢
    simp [h2]

/-- Concrete run of claim C6's theorem on the spec-modelled primitive, whose
unlock entry point is idempotent and total. -/
theorem C6_unlock_idempotent_ok_witness :
    ((Lock.new 3).unlock specPrim osFree).result = .ok () ∧
    ((Lock.new 3).unlock specPrim
        ((Lock.new 3).unlock specPrim osFree).state).result = .ok () :=
  C6_unlock_idempotent_ok specPrim osFree 3 (by decide) (by decide)

/-- Claim C7: round-trip on the spec-modelled primitive: from any OS state in
which no other holder has the descriptor (and none intervenes), acquire,
release, and acquire again all return `Ok(())` — a completed cycle leaves no
state that makes the next acquisition fail. -/
theorem C7_roundtrip (s : OsState) (fd : Int) (kind : Kind) (mode : Mode)
    (h : s.otherLocked fd = false) :
    (functions.lock specPrim s fd kind mode).result = .ok () ∧
    (functions.unlock specPrim
        (functions.lock specPrim s fd kind mode).state fd).result = .ok () ∧
    (functions.lock specPrim
        (functions.unlock specPrim
          (functions.lock specPrim s fd kind mode).state fd).state
        fd kind mode).result = .ok () := by
  simp [functions.lock, functions.unlock, specPrim, specCLock, specCUnlock,
    lockResult, h, setFd, EAGAIN]

/-- Concrete run of claim C7's theorem from the all-free OS state. -/
theorem C7_roundtrip_witness :
    (functions.lock specPrim osFree 3 Kind.NonBlocking Mode.Write).result =
        .ok () ∧
    (functions.unlock specPrim
        (functions.lock specPrim osFree 3 Kind.NonBlocking Mode.Write).state
        3).result = .ok () ∧
    (functions.lock specPrim
        (functions.unlock specPrim
          (functions.lock specPrim osFree 3 Kind.NonBlocking
            Mode.Write).state 3).state
        3 Kind.NonBlocking Mode.Write).result = .ok () :=
  C7_roundtrip osFree 3 Kind.NonBlocking Mode.Write rfl

/-- Claim C8: `Lock::new(fd)` is pure construction — in the embedding it is a
plain function with no world argument and no call trace, so it performs no
syscall — and the handle's state is exactly the given descriptor: `new fd`
stores `fd`, and two handles with the same descriptor are equal (there is no
further field, such as one tracking whether a lock is held). -/
theorem C8_new_pure_construction (fd : Int) :
    (Lock.new fd).fd = fd ∧ Lock.new fd = ⟨fd⟩ ∧
    ∀ l l' : Lock, l.fd = l'.fd → l = l' := by
  refine ⟨rfl, rfl, ?_⟩
  intro l l' h
  cases l
  cases l'
  simp_all

/-- Concrete run of claim C8's theorem at descriptor 3. -/
theorem C8_new_pure_construction_witness :
    (Lock.new 3).fd = 3 ∧ Lock.new 3 = ⟨3⟩ ∧ Lock.new 3 = Lock.new 3 :=
  ⟨(C8_new_pure_construction 3).1, (C8_new_pure_construction 3).2.1,
    (C8_new_pure_construction 3).2.2 (Lock.new 3) (Lock.new 3) rfl⟩

/-- Claim C9: no handle operation closes the descriptor or touches any other
descriptor: `lock` issues exactly one lock call on the handle's own fd,
`unlock` and drop issue exactly one unlock call on that fd, and none of the
calls issued by any operation is a `close`.  The handle's stored fd is
immutable data in the embedding, unchanged across every operation. -/
theorem C9_never_closes_descriptor {σ : Type} (p : Prim σ) (s : σ) (l : Lock)
    (kind : Kind) (mode : Mode) :
    (l.lock p s kind mode).calls = [Call.lock l.fd kind.into mode.into] ∧
    (l.unlock p s).calls = [Call.unlock l.fd] ∧
    (l.drop p s).calls = [Call.unlock l.fd] ∧
    (((l.lock p s kind mode).calls ++ (l.unlock p s).calls ++
        (l.drop p s).calls).all fun c => !c.isClose) = true :=
  ⟨rfl, rfl, rfl, rfl⟩

/-- Claim C10: the classification done by `functions::lock` is a function of
the primitive's return code alone: two calls (over possibly different
worlds, descriptors, kinds and modes) in which the primitive returns the
same code produce the same `Result`. -/
theorem C10_classification_deterministic {σ τ : Type} (p : Prim σ)
    (q : Prim τ) (s : σ) (t : τ) (fd1 fd2 : Int) (k1 k2 : Kind)
    (m1 m2 : Mode)
    (h : (p.c_lock s fd1 k1.into m1.into).1 =
      (q.c_lock t fd2 k2.into m2.into).1) :
    (functions.lock p s fd1 k1 m1).result =
      (functions.lock q t fd2 k2 m2).result :=
  congrArg lockResult h

/-- Concrete run of claim C10's theorem: same return code 11, different fd,
kind and mode, same classified result. -/
theorem C10_classification_deterministic_witness :
    (functions.lock (⟨fun s _ _ _ => (11, s), fun s _ => (0, s)⟩ : Prim Unit)
        () 3 Kind.NonBlocking Mode.Write).result =
      (functions.lock (⟨fun s _ _ _ => (11, s), fun s _ => (0, s)⟩ : Prim Unit)
        () 7 Kind.Blocking Mode.Read).result :=
  C10_classification_deterministic
    (⟨fun s _ _ _ => (11, s), fun s _ => (0, s)⟩ : Prim Unit)
    (⟨fun s _ _ _ => (11, s), fun s _ => (0, s)⟩ : Prim Unit)
    () () 3 7 Kind.NonBlocking Kind.Blocking Mode.Write Mode.Read rfl
